import Mathlib

/-!
Shallow embedding of the GLS shipment-upload core of the
`validazione-indirizzi` repository:
  * `gls_models.py`   — `GLSParcel.__post_init__`, `GLSResponse.is_success`,
                        `GLSUploadResult` and its mutators;
  * `upload_tracker.py` — key generation, `is_uploaded`, `mark_uploaded`,
                        `_save` (file-write behaviour);
  * `gls_client.py`   — `_execute_with_retry`, `add_parcels`,
                        `_parse_add_parcel_response`;
  * `gls_processor.py` — the dedup/build loop of `process_file` and
                        `_upload_batches`.

Python strings are modelled as `List Char`; `md5` and the JSON/XML
libraries are external collaborators and are passed in as parameters
(an oracle for the remote call returns an already-parsed document).
-/

/-- Python strings, modelled as lists of characters. -/
abbrev PyStr := List Char

/-- Character data of a Lean string literal, used to write `PyStr` constants. -/
def pystr (s : String) : PyStr := s.data

/-- Python `str.strip()`: remove leading and trailing whitespace. -/
def pyStrip (s : PyStr) : PyStr :=
  ((s.dropWhile Char.isWhitespace).reverse.dropWhile Char.isWhitespace).reverse

/-- Python `str.zfill(w)`: left-pad with `'0'` to width `w`
(a leading sign stays in front of the padding). -/
def pyZfill (w : Nat) (s : PyStr) : PyStr :=
  if s.length ≥ w then s
  else
    match s with
    | c :: rest =>
        if c = '+' ∨ c = '-' then
          c :: (List.replicate (w - s.length) '0' ++ rest)
        else
          List.replicate (w - s.length) '0' ++ s
    | [] => List.replicate w '0'

/-- Python `str.upper()` (ASCII case mapping). -/
def pyUpper (s : PyStr) : PyStr := s.map Char.toUpper

/-- Python `str.lower()` (ASCII case mapping). -/
def pyLower (s : PyStr) : PyStr := s.map Char.toLower

/-- Python `sep.join(xs)`. -/
def pyJoin (sep : PyStr) : List PyStr → PyStr
  | [] => []
  | [x] => x
  | x :: xs => x ++ sep ++ pyJoin sep xs

/-- Decimal rendering of a row index, as Python `str(row_index)`. -/
def natRepr (n : Nat) : PyStr := (Nat.repr n).data

/-- `config.GLS_MAX_PARCELS_PER_BATCH`. -/
def GLS_MAX_PARCELS_PER_BATCH : Nat := 400

/-- `config.GLS_RETRY_ATTEMPTS`. -/
def GLS_RETRY_ATTEMPTS : Nat := 3

/-- `config.GLS_RETRY_DELAY` (seconds, base of the exponential backoff). -/
def GLS_RETRY_DELAY : Nat := 2

/-- `gls_models.GLSParcel` after `__post_init__` has run.  The monetary
and weight fields are kept as rationals; none of the claims depends on
their float representation. -/
structure GLSParcel where
  ragione_sociale : PyStr
  indirizzo : PyStr
  localita : PyStr
  zipcode : PyStr
  provincia : PyStr
  colli : Nat := 1
  peso : Rat := 3
  note : PyStr := []
  email : PyStr := []
  cellulare : PyStr := []
  bda : PyStr := []
  contrassegno : Rat := 0
  importo_assicurato : Rat := 0
  deriving Repr, DecidableEq

/-- `GLSParcel.__post_init__` (gls_models.py lines 43–63): truncate
`ragione_sociale`/`indirizzo` to 35 chars, `note` to 40, `provincia` to
2 chars then uppercase, and normalize the zipcode by
`str(zipcode).strip().zfill(5)[:5]`.  Construction never fails. -/
def mkGLSParcel (ragione_sociale indirizzo localita zipcode provincia : PyStr)
    (colli : Nat) (peso : Rat) (note email cellulare bda : PyStr)
    (contrassegno importo_assicurato : Rat) : GLSParcel :=
  let rs := if ragione_sociale.length > 35 then ragione_sociale.take 35 else ragione_sociale
  let ind := if indirizzo.length > 35 then indirizzo.take 35 else indirizzo
  let nt := if note.length > 40 then note.take 40 else note
  let pr := pyUpper (if provincia.length > 2 then provincia.take 2 else provincia)
  let zp := (pyZfill 5 (pyStrip zipcode)).take 5
  { ragione_sociale := rs, indirizzo := ind, localita := localita,
    zipcode := zp, provincia := pr, colli := colli, peso := peso,
    note := nt, email := email, cellulare := cellulare, bda := bda,
    contrassegno := contrassegno, importo_assicurato := importo_assicurato }

/-- `gls_models.GLSResponse`. -/
structure GLSResponse where
  numero_spedizione : PyStr := []
  esito : PyStr := []
  pdf_base64 : PyStr := []
  error_message : PyStr := []
  bda : PyStr := []
  deriving Repr, DecidableEq

/-- `GLSResponse.is_success` (gls_models.py lines 94–97):
`esito.upper() == "OK" and bool(numero_spedizione)`. -/
def GLSResponse.is_success (r : GLSResponse) : Bool :=
  pyUpper r.esito == pystr "OK" && !r.numero_spedizione.isEmpty

/-- `gls_models.GLSUploadResult`. -/
structure GLSUploadResult where
  total : Nat := 0
  uploaded : Nat := 0
  skipped : Nat := 0
  failed : Nat := 0
  errors : List PyStr := []
  responses : List GLSResponse := []
  deriving Repr, DecidableEq

/-- `GLSUploadResult.add_success`. -/
def GLSUploadResult.add_success (res : GLSUploadResult) (r : GLSResponse) :
    GLSUploadResult :=
  { res with uploaded := res.uploaded + 1, responses := res.responses ++ [r] }

/-- `GLSUploadResult.add_skip`. -/
def GLSUploadResult.add_skip (res : GLSUploadResult) (reason : PyStr) :
    GLSUploadResult :=
  { res with skipped := res.skipped + 1,
             errors := if reason = [] then res.errors
                       else res.errors ++ [pystr "SKIP: " ++ reason] }

/-- `GLSUploadResult.add_failure`. -/
def GLSUploadResult.add_failure (res : GLSUploadResult) (error : PyStr)
    (bda : PyStr) : GLSUploadResult :=
  { res with failed := res.failed + 1,
             errors := res.errors ++
               [if bda = [] then pystr "ERRORE: " ++ error
                else pystr "ERRORE " ++ bda ++ pystr ": " ++ error] }

/-! ## Upload tracker (`upload_tracker.py`) -/

/-- The final path component, as `pathlib.PurePath.name`. -/
def baseName (p : PyStr) : PyStr := (p.reverse.takeWhile (· ≠ '/')).reverse

/-- `pathlib.PurePath.stem`: the final component without its last suffix
(a dot in first position does not start a suffix). -/
def pathStem (p : PyStr) : PyStr :=
  let n := baseName p
  if (n.drop 1).contains '.' then
    (((n.reverse).dropWhile (· ≠ '.')).drop 1).reverse
  else n

/-- The identifying fields of a spreadsheet row, as extracted by
`GLSProcessor._extract_row_data`. -/
structure RowData where
  ragione_sociale : PyStr := []
  indirizzo : PyStr := []
  cap : PyStr := []
  citta : PyStr := []
  provincia : PyStr := []
  progressivo : PyStr := []
  telefono_fisso : PyStr := []
  telefono_cell : PyStr := []
  email : PyStr := []
  indicazioni : PyStr := []
  deriving Repr, DecidableEq

/-- `UploadTracker._generate_row_key` (upload_tracker.py lines 52–80):
`f"{file_stem}:{row_index}:{md5('|'.join(fields).lower())[:8]}"`.
`hashlib.md5(...).hexdigest()` is an external library, passed in as the
function `md5`. -/
def generate_row_key (md5 : PyStr → PyStr) (file_path : PyStr)
    (row_index : Nat) (row_data : RowData) : PyStr :=
  let data_str := pyLower (pyJoin (pystr "|")
    [row_data.ragione_sociale, row_data.indirizzo, row_data.cap])
  pathStem file_path ++ pystr ":" ++ natRepr row_index ++ pystr ":"
    ++ (md5 data_str).take 8

/-- A persisted `UploadRecord` of the tracker (`upload_tracker.py`
lines 117–126).  `uploaded_at` is `datetime.now().isoformat()`, supplied
by the caller of the model. -/
structure UploadRecord where
  file : PyStr
  row : Nat
  shipment_id : PyStr
  ragione_sociale : PyStr
  uploaded_at : PyStr
  response_esito : Option PyStr := none
  deriving Repr, DecidableEq

/-- One entry of the tracker's `history` list. -/
inductive HistEntry where
  | upload (key : PyStr) (timestamp : PyStr) (shipment_id : PyStr)
  | clear_file (file : PyStr) (count : Nat) (timestamp : PyStr)
  | clear_all (count : Nat) (timestamp : PyStr)
  deriving Repr, DecidableEq

/-- The in-memory `self._data` of an `UploadTracker`: the `uploads` dict
(insertion-ordered, as a Python dict) and the `history` list. -/
structure TrackerData where
  uploads : List (PyStr × UploadRecord) := []
  history : List HistEntry := []
  deriving Repr, DecidableEq

/-- Python dict assignment `d[k] = v`: replace in place when the key is
present, append otherwise. -/
def dictInsert (k : PyStr) (v : UploadRecord)
    (d : List (PyStr × UploadRecord)) : List (PyStr × UploadRecord) :=
  if d.any (fun p => p.1 = k) then
    d.map (fun p => if p.1 = k then (k, v) else p)
  else d ++ [(k, v)]

/-- `UploadTracker.is_uploaded` (upload_tracker.py lines 82–95):
key membership in the `uploads` dict. -/
def is_uploaded (md5 : PyStr → PyStr) (file_path : PyStr) (row_index : Nat)
    (row_data : RowData) (t : TrackerData) : Bool :=
  t.uploads.any (fun p => p.1 = generate_row_key md5 file_path row_index row_data)

/-- `UploadTracker.mark_uploaded` (upload_tracker.py lines 97–138), the
in-memory effect: store the `UploadRecord` under the row key and append
an `upload` history entry.  (`_save` is modelled separately below.) -/
def mark_uploaded (md5 : PyStr → PyStr) (file_path : PyStr) (row_index : Nat)
    (row_data : RowData) (shipment_id : PyStr) (response_esito : Option PyStr)
    (now : PyStr) (t : TrackerData) : TrackerData :=
  let key := generate_row_key md5 file_path row_index row_data
  let record : UploadRecord :=
    { file := baseName file_path, row := row_index, shipment_id := shipment_id,
      ragione_sociale := row_data.ragione_sociale, uploaded_at := now,
      response_esito := response_esito }
  { uploads := dictInsert key record t.uploads,
    history := t.history ++ [HistEntry.upload key now shipment_id] }

/-- Number of `uploads` entries stored under a key. -/
def countKey (k : PyStr) (d : List (PyStr × UploadRecord)) : Nat :=
  (d.filter (fun p => p.1 = k)).length

/-- The `uploads` dict has no duplicate keys (true of every dict). -/
def noDupKeys (d : List (PyStr × UploadRecord)) : Prop :=
  (d.map Prod.fst).Nodup

/-! ### `_save` as seen on disk

`UploadTracker._save` (upload_tracker.py lines 44–50) persists with
`open(self.tracker_file, "w")` followed by `json.dump`: the target file
is truncated on open and then written front to back.  The states a
reader (or a crash) can observe are the old content, then the empty
file, then every prefix of the new content.  JSON serialization
(`json.dump`) is an external library, passed in as `ser`. -/

/-- The sequence of on-disk contents of the tracker file during
`_save`: the previous content, then — once `open(..., "w")` has
truncated — each prefix of the new content as the write progresses. -/
def directWriteStates (old new : PyStr) : List PyStr :=
  old :: (List.range (new.length + 1)).map (fun k => new.take k)

/-- On-disk states of the tracker file during the `_save` issued by
`mark_uploaded`, given the previous file content and a serializer. -/
def markUploadedWriteStates (ser : TrackerData → PyStr) (old : PyStr)
    (md5 : PyStr → PyStr) (file_path : PyStr) (row_index : Nat)
    (row_data : RowData) (shipment_id : PyStr) (response_esito : Option PyStr)
    (now : PyStr) (t : TrackerData) : List PyStr :=
  directWriteStates old
    (ser (mark_uploaded md5 file_path row_index row_data shipment_id
      response_esito now t))

/-! ## Retrying transport (`gls_client._execute_with_retry`) -/

/-- What one remote attempt can do: return a value, raise a
`zeep.exceptions.Fault`/`TransportError` (retried), or raise any other
exception (not retried). -/
inductive AttemptOutcome (V : Type) where
  | success (v : V)
  | fault (msg : PyStr)
  | other (msg : PyStr)

/-- The `for attempt in range(GLS_RETRY_ATTEMPTS)` loop of
`_execute_with_retry` (gls_client.py lines 69–82).  `oracle k` is the
outcome of the SOAP call on (0-based) attempt `k`.  Returns the result
together with the list of attempt indices actually made and the list of
backoff delays slept, in order. -/
def retryGo (oracle : Nat → AttemptOutcome V) :
    Nat → Nat → PyStr → Except PyStr V × List Nat × List Nat
  | 0, _, last =>
      (Except.error (pystr "Fallito dopo " ++ natRepr GLS_RETRY_ATTEMPTS
        ++ pystr " tentativi: " ++ last), [], [])
  | remaining + 1, attempt, _ =>
      match oracle attempt with
      | .success v => (Except.ok v, [attempt], [])
      | .other m => (Except.error (pystr "Errore imprevisto: " ++ m), [attempt], [])
      | .fault m =>
          if remaining = 0 then
            (Except.error (pystr "Fallito dopo " ++ natRepr GLS_RETRY_ATTEMPTS
              ++ pystr " tentativi: " ++ m), [attempt], [])
          else
            let d := GLS_RETRY_DELAY * 2 ^ attempt
            let (res, calls, sleeps) := retryGo oracle remaining (attempt + 1) m
            (res, attempt :: calls, d :: sleeps)

/-- `GLSClient._execute_with_retry`: the full retry loop starting at
attempt 0 with a budget of `GLS_RETRY_ATTEMPTS`. -/
def executeWithRetry (oracle : Nat → AttemptOutcome V) :
    Except PyStr V × List Nat × List Nat :=
  retryGo oracle GLS_RETRY_ATTEMPTS 0 (pystr "None")

/-! ## Wire responses (`gls_client._parse_add_parcel_response`)

An `lxml` element tree (attributes and tails are never read by the
client, so they are not modelled); `etree.fromstring` is external, so
the remote oracle hands back an already-parsed `XmlDoc`, whose
`malformed` case stands for `etree.XMLSyntaxError`. -/

/-- An XML element: tag, text content (`""` models `None`), children. -/
inductive XmlNode where
  | mk (tag : PyStr) (text : PyStr) (children : List XmlNode)

/-- Element tag. -/
def XmlNode.tag : XmlNode → PyStr
  | .mk t _ _ => t

/-- Element text. -/
def XmlNode.text : XmlNode → PyStr
  | .mk _ t _ => t

/-- Element children. -/
def XmlNode.children : XmlNode → List XmlNode
  | .mk _ _ c => c

/-- The outcome of `etree.fromstring` on the wire response. -/
inductive XmlDoc where
  | malformed (err : PyStr)
  | wellFormed (root : XmlNode)

mutual
/-- `root.findall(".//tag")`: all strict descendants with the given tag,
in document order. -/
def findDescendants (tag : PyStr) : XmlNode → List XmlNode
  | .mk _ _ cs => findDescendantsList tag cs

/-- `findDescendants` over a list of siblings. -/
def findDescendantsList (tag : PyStr) : List XmlNode → List XmlNode
  | [] => []
  | c :: rest =>
      (if c.tag = tag then [c] else []) ++ findDescendants tag c
        ++ findDescendantsList tag rest
end

mutual
/-- `etree.tostring(node, encoding="unicode")` on the modelled fragment
(no attributes or tails). -/
def xmlToString : XmlNode → PyStr
  | .mk tag text cs =>
      if text.isEmpty ∧ cs.isEmpty then pystr "<" ++ tag ++ pystr "/>"
      else pystr "<" ++ tag ++ pystr ">" ++ text ++ xmlToStringList cs
        ++ pystr "</" ++ tag ++ pystr ">"

/-- `xmlToString` concatenated over children. -/
def xmlToStringList : List XmlNode → PyStr
  | [] => []
  | c :: rest => xmlToString c ++ xmlToStringList rest
end

/-- `root.findall(".//Parcel") or root.findall(".//parcel")`
(gls_client.py line 172): Python `or` on lists takes the second search
only when the first finds nothing. -/
def parcelEntries (root : XmlNode) : List XmlNode :=
  let ps := findDescendants (pystr "Parcel") root
  if ps.isEmpty then findDescendants (pystr "parcel") root else ps

/-- One iteration of the `for child in parcel_result` field loop
(gls_client.py lines 182–195): dispatch on the lowercased tag, later
children overriding earlier ones. -/
def applyChild (r : GLSResponse) (c : XmlNode) : GLSResponse :=
  let tag := pyLower c.tag
  let text := c.text
  if tag = pystr "numerospedizione" ∨ tag = pystr "parcelid" ∨ tag = pystr "sped" then
    { r with numero_spedizione := text }
  else if tag = pystr "esito" ∨ tag = pystr "result" then
    { r with esito := text }
  else if tag = pystr "errore" ∨ tag = pystr "error" ∨ tag = pystr "errormessage" then
    { r with error_message := text }
  else if tag = pystr "pdf" ∨ tag = pystr "pdfbase64" ∨ tag = pystr "label" then
    { r with pdf_base64 := text }
  else if tag = pystr "bda" then
    { r with bda := text }
  else r

/-- Building the `GLSResponse` for entry `i` (gls_client.py lines
174–197): positional `bda` backfill when `i < len(parcels)`, then the
field loop over the entry's children. -/
def parseEntry (parcels : List GLSParcel) (i : Nat) (entry : XmlNode) :
    GLSResponse :=
  let r0 : GLSResponse := {}
  let r1 := match parcels.get? i with
    | some p => { r0 with bda := p.bda }
    | none => r0
  entry.children.foldl applyChild r1

/-- `GLSClient._parse_add_parcel_response` (gls_client.py lines
153–218). -/
def parse_add_parcel_response (doc : XmlDoc) (parcels : List GLSParcel) :
    List GLSResponse :=
  match doc with
  | .malformed err =>
      parcels.map (fun p =>
        { bda := p.bda, esito := pystr "KO",
          error_message := pystr "XML non valido: " ++ err })
  | .wellFormed root =>
      let entries := parcelEntries root
      let responses := entries.enum.map (fun ie => parseEntry parcels ie.1 ie.2)
      if responses = [] then
        let error_text := if root.text = [] then xmlToString root else root.text
        parcels.map (fun p =>
          { bda := p.bda, esito := pystr "KO",
            error_message := pystr "Risposta non parsabile: " ++ error_text.take 100 })
      else responses

/-- `GLSClient.add_parcels` (gls_client.py lines 97–128): fail fast on
an oversized batch before any remote call, return `[]` on an empty
batch, otherwise call `AddParcel` through the retry loop and parse the
response. -/
def add_parcels (oracle : Nat → AttemptOutcome XmlDoc)
    (parcels : List GLSParcel) : Except PyStr (List GLSResponse) :=
  if parcels.length > GLS_MAX_PARCELS_PER_BATCH then
    Except.error (pystr "Massimo " ++ natRepr GLS_MAX_PARCELS_PER_BATCH
      ++ pystr " spedizioni per batch")
  else if parcels.isEmpty then Except.ok []
  else
    match (executeWithRetry oracle).1 with
    | .error e => Except.error e
    | .ok doc => Except.ok (parse_add_parcel_response doc parcels)

/-! ## Batch orchestrator (`gls_processor.py`) -/

/-- Python `range(0, stop, step)` for `step > 0`. -/
def pyRangeStep (stop step : Nat) : List Nat :=
  (List.range ((stop + step - 1) / step)).map (· * step)

/-- The batch starts and slices taken by `_upload_batches`
(gls_processor.py lines 292–295): `for batch_start in
range(0, total_parcels, maxB): parcels[batch_start : batch_start + maxB]`. -/
def batchSlices (maxB : Nat) (l : List α) : List (List α) :=
  (pyRangeStep l.length maxB).map (fun s => (l.drop s).take maxB)

/-- Recursive form of the same chunking: take `step` elements, recurse
on the rest (proved equal to `batchSlices` for positive `step`). -/
def chunkList : Nat → List α → List (List α)
  | _, [] => []
  | 0, _ :: _ => []
  | step + 1, x :: xs =>
      (x :: xs).take (step + 1) :: chunkList (step + 1) ((x :: xs).drop (step + 1))
  termination_by _ l => l.length
  decreasing_by simp [List.length_drop]; omega

/-- Python `str.replace(pat, rep)` for a non-empty pattern: replace all
non-overlapping occurrences, left to right.  (The source only calls it
with `"+39"` and `" "`; an empty pattern returns the string unchanged
here.) -/
def pyReplace (pat rep : PyStr) : PyStr → PyStr
  | [] => []
  | c :: rest =>
      if h : pat ≠ [] ∧ pat.isPrefixOf (c :: rest) then
        rep ++ pyReplace pat rep ((c :: rest).drop pat.length)
      else
        c :: pyReplace pat rep rest
  termination_by s => s.length
  decreasing_by
  · cases pat with
    | nil => exact absurd rfl h.1
    | cons p ps =>
        simp only [List.length_drop, List.length_cons]
        omega
  · simp

/-- `GLSProcessor._build_note` (gls_processor.py lines 245–277):
`"progressivo - telefono - indicazioni"`, empty parts dropped, phone
with `"+39"` and spaces removed, truncated to 40 characters. -/
def build_note (rd : RowData) : PyStr :=
  let progressivo := pyStrip rd.progressivo
  let parts0 : List PyStr := if progressivo ≠ [] then [progressivo] else []
  let telefono0 := if rd.telefono_cell ≠ [] then rd.telefono_cell
                   else rd.telefono_fisso
  let parts1 :=
    if telefono0 ≠ [] then
      let telefono := pyStrip (pyReplace (pystr " ") []
        (pyReplace (pystr "+39") [] telefono0))
      if telefono ≠ [] then parts0 ++ [telefono] else parts0
    else parts0
  let indicazioni := pyStrip rd.indicazioni
  let parts2 := if indicazioni ≠ [] then parts1 ++ [indicazioni] else parts1
  let note := pyJoin (pystr " - ") parts2
  if note.length > 40 then note.take 40 else note

/-- `GLSProcessor._create_parcel` (gls_processor.py lines 214–243):
`None` when recipient name or address is empty, otherwise a normalized
`GLSParcel`. -/
def create_parcel (rd : RowData) (colli : Nat) (peso : Rat) :
    Option GLSParcel :=
  if rd.ragione_sociale = [] ∨ rd.indirizzo = [] then none
  else
    let note := build_note rd
    let cellulare := if rd.telefono_cell ≠ [] then rd.telefono_cell
                     else rd.telefono_fisso
    let bda := rd.progressivo
    some (mkGLSParcel rd.ragione_sociale rd.indirizzo rd.citta rd.cap
      rd.provincia colli peso note rd.email cellulare bda 0 0)

/-- The response-reconciliation loop of `_upload_batches`
(gls_processor.py lines 306–322): `for i, response in
enumerate(responses): idx, row_data = batch_indices[i]; ...`.  `none`
models the `IndexError` raised when a response has no matching entry in
`batch_indices`. -/
def reconcileResponses (md5 : PyStr → PyStr) (file_path now : PyStr) :
    List GLSResponse → List (Nat × RowData) → GLSUploadResult →
    TrackerData → Option (GLSUploadResult × TrackerData)
  | [], _, res, tr => some (res, tr)
  | _ :: _, [], _, _ => none
  | r :: rs, (idx, rd) :: bis, res, tr =>
      if r.is_success then
        reconcileResponses md5 file_path now rs bis (res.add_success r)
          (mark_uploaded md5 file_path idx rd r.numero_spedizione
            (some r.esito) now tr)
      else
        reconcileResponses md5 file_path now rs bis
          (res.add_failure
            (if r.error_message = [] then pystr "Errore sconosciuto"
             else r.error_message) r.bda) tr

/-- The batch loop of `_upload_batches` (gls_processor.py lines
292–330), over the list of (parcel slice, index slice) pairs: submit
each batch; on `GLSClientError` mark every row of the batch failed with
the exception text and continue; otherwise reconcile the responses. -/
def uploadBatchesGo (submit : List GLSParcel → Except PyStr (List GLSResponse))
    (md5 : PyStr → PyStr) (file_path now : PyStr) :
    List (List GLSParcel × List (Nat × RowData)) → GLSUploadResult →
    TrackerData → Option (GLSUploadResult × TrackerData)
  | [], res, tr => some (res, tr)
  | (batch, bi) :: rest, res, tr =>
      match submit batch with
      | .ok responses =>
          match reconcileResponses md5 file_path now responses bi res tr with
          | none => none
          | some (res', tr') => uploadBatchesGo submit md5 file_path now rest res' tr'
      | .error e =>
          let res' := bi.foldl
            (fun acc p => acc.add_failure e (natRepr p.1)) res
          uploadBatchesGo submit md5 file_path now rest res' tr

/-- `GLSProcessor._upload_batches` (gls_processor.py lines 279–330).
The batch size is `GLS_MAX_PARCELS_PER_BATCH` in the source; it is a
parameter here so the spec's small scenarios can be stated.  `submit`
stands for `self.client.add_parcels(batch, generate_pdf)`. -/
def upload_batches (maxB : Nat)
    (submit : List GLSParcel → Except PyStr (List GLSResponse))
    (md5 : PyStr → PyStr) (file_path now : PyStr)
    (parcels : List GLSParcel) (row_indices : List (Nat × RowData))
    (res : GLSUploadResult) (tr : TrackerData) :
    Option (GLSUploadResult × TrackerData) :=
  uploadBatchesGo submit md5 file_path now
    ((pyRangeStep parcels.length maxB).map
      (fun s => ((parcels.drop s).take maxB, (row_indices.drop s).take maxB)))
    res tr

/-- One iteration of the dedup-and-build loop of `process_file`
(gls_processor.py lines 130–144): skip a row already in the ledger
(when `skip_uploaded`), otherwise build its parcel or record the
construction failure. -/
def prepareStep (md5 : PyStr → PyStr) (skip_uploaded : Bool)
    (file_path : PyStr) (tracker : TrackerData) (colli : Nat) (peso : Rat)
    (acc : GLSUploadResult × List GLSParcel × List (Nat × RowData))
    (row : Nat × RowData) :
    GLSUploadResult × List GLSParcel × List (Nat × RowData) :=
  let res := acc.1
  let ps := acc.2.1
  let ris := acc.2.2
  let idx := row.1
  let rd := row.2
  if skip_uploaded && is_uploaded md5 file_path idx rd tracker then
    (res.add_skip (pystr "Riga " ++ natRepr idx ++ pystr " già caricata"),
      ps, ris)
  else
    match create_parcel rd colli peso with
    | some p => (res, ps ++ [p], ris ++ [(idx, rd)])
    | none => (res.add_failure (pystr "Dati insufficienti") (natRepr idx),
        ps, ris)

/-- The dedup-and-build loop of `process_file` (gls_processor.py lines
126–144), folded over the rows with `result.total` preset to the row
count. -/
def prepareRows (md5 : PyStr → PyStr) (skip_uploaded : Bool)
    (file_path : PyStr) (tracker : TrackerData) (colli : Nat) (peso : Rat)
    (rows : List (Nat × RowData)) :
    GLSUploadResult × List GLSParcel × List (Nat × RowData) :=
  rows.foldl (prepareStep md5 skip_uploaded file_path tracker colli peso)
    ({ total := rows.length }, [], [])

/-- The core of `GLSProcessor.process_file` (gls_processor.py lines
108–155): dedup filter and parcel build, then batch upload when any
parcels remain (`close_workday` and progress reporting are not part of
any claim and are omitted). -/
def process_file_core (maxB : Nat)
    (submit : List GLSParcel → Except PyStr (List GLSResponse))
    (md5 : PyStr → PyStr) (skip_uploaded : Bool) (file_path now : PyStr)
    (colli : Nat) (peso : Rat) (rows : List (Nat × RowData))
    (tracker : TrackerData) : Option (GLSUploadResult × TrackerData) :=
  let prep := prepareRows md5 skip_uploaded file_path tracker colli peso rows
  if prep.2.1.isEmpty then some (prep.1, tracker)
  else upload_batches maxB submit md5 file_path now prep.2.1 prep.2.2
    prep.1 tracker

/-! ## Spec-side definitions and concrete fixtures -/

/-- Postal-code normalization as the spec words it (for comparison with
the source's `mkGLSParcel`): strip whitespace, drop any trailing decimal
fragment, left-pad with zeros to 5 digits. -/
def specZipcodeNormalize (s : PyStr) : PyStr :=
  let t := pyStrip s
  let u := if t.contains '.' then t.takeWhile (· ≠ '.') else t
  pyZfill 5 u

/-- A fixed stand-in for `hashlib.md5(...).hexdigest()` used in concrete
evaluations. -/
def md5c : PyStr → PyStr := fun _ => pystr "0123456789abcdef"

/-- A minimal well-formed parcel used in concrete evaluations. -/
def sampleParcel : GLSParcel :=
  mkGLSParcel (pystr "A") (pystr "B") [] [] [] 1 3 [] [] [] [] 0 0

/-- A minimal row with the two required fields present. -/
def sampleRow (tag : Char) : RowData :=
  { ragione_sociale := [tag], indirizzo := pystr "Via X" }

/-- Three-row input of the spec's end-to-end scenario. -/
def scenarioRows : List (Nat × RowData) :=
  [(0, sampleRow 'a'), (1, sampleRow 'b'), (2, sampleRow 'c')]

/-- A successful wire response carrying a shipment id. -/
def okResponse (sid : PyStr) : GLSResponse :=
  { numero_spedizione := sid, esito := pystr "OK" }

/-- A remote that raises a transport fault on every attempt. -/
def timeoutOracle : Nat → AttemptOutcome XmlDoc :=
  fun _ => AttemptOutcome.fault (pystr "timeout")

/-- The submit behaviour of the spec's end-to-end scenario: the first
group (2 parcels) fully succeeds; any other group goes through the real
client with a remote that faults on every attempt, exhausting the retry
budget. -/
def scenarioSubmit : List GLSParcel → Except PyStr (List GLSResponse) :=
  fun batch =>
    if batch.length = 2 then
      Except.ok [okResponse (pystr "S1"), okResponse (pystr "S2")]
    else
      add_parcels timeoutOracle batch

/-- A well-formed response document with one `Parcel` entry whose only
field is `Esito = "OK"`. -/
def wfRoot : XmlNode :=
  XmlNode.mk (pystr "Info") []
    [XmlNode.mk (pystr "Parcel") [] [XmlNode.mk (pystr "Esito") (pystr "OK") []]]

/-- A well-formed response document with no parcel entries and body
text `"boom"`. -/
def noEntriesRoot : XmlNode := XmlNode.mk (pystr "Info") (pystr "boom") []

/-- The aggregate result after reconciling one successful response
against a fresh result. -/
def resW : GLSUploadResult :=
  { uploaded := 1, responses := [okResponse (pystr "S1")] }

/-- The tracker after reconciling that same successful response against
a fresh tracker. -/
def trW : TrackerData :=
  mark_uploaded md5c (pystr "f.xlsx") 0 (sampleRow 'a') (pystr "S1")
    (some (pystr "OK")) (pystr "T") {}

/-! ## Helper lemmas -/

/-- A truncate-if-too-long step yields a list of length at most `n`. -/
lemma length_truncIf_le (n : Nat) (s : PyStr) :
    (if s.length > n then s.take n else s).length ≤ n := by
  split
  · next => simp [List.length_take]
  · next h => omega

/-- `pyZfill` never returns fewer than `w` characters. -/
lemma le_length_pyZfill (w : Nat) (s : PyStr) : w ≤ (pyZfill w s).length := by
  unfold pyZfill
  split
  · omega
  · next hlt =>
    have hl : s.length < w := by omega
    cases s with
    | nil => simp
    | cons c rest =>
        simp only [List.length_cons] at hl
        by_cases hc : c = '+' ∨ c = '-'
        · simp only [if_pos hc, List.length_cons, List.length_append,
            List.length_replicate]
          omega
        · simp only [if_neg hc, List.length_append, List.length_replicate,
            List.length_cons]
          omega

/-! ## Claim theorems -/

/-- C5 counterexample: a response with outcome flag `"ok"` (not the
literal `"OK"`) and a non-empty shipment id is a success of the code —
`is_success` uppercases the flag before comparing — refuting the
claimed iff, whose "flag not OK with an id" combination this is. -/
theorem C5_success_counterexample :
    ({ esito := pystr "ok", numero_spedizione := pystr "S1" } : GLSResponse).is_success
        = true
    ∧ ({ esito := pystr "ok",
          numero_spedizione := pystr "S1" } : GLSResponse).esito ≠ pystr "OK" := by
  decide

/-- C5 (amended): for every `GLSResponse`, `is_success` holds iff the
uppercased outcome flag equals `"OK"` and a non-empty shipment id was
assigned; every combination with an empty id or a flag other than a
case variant of `"OK"` (both missing included) is a failure, even if
the flag claims success. -/
theorem C5_success_criterion_cased (r : GLSResponse) :
    r.is_success = true
      ↔ (pyUpper r.esito = pystr "OK" ∧ r.numero_spedizione ≠ []) := by
  rw [GLSResponse.is_success]
  simp [List.isEmpty_iff]

/-- C8 counterexample: on input `"100.0"` the code's zipcode
normalization keeps `"100.0"` (strip, left-pad to 5, truncate to 5),
while the claimed drop-decimal-then-pad recipe would give `"00100"`. -/
theorem C8_zip_counterexample :
    (mkGLSParcel (pystr "A") (pystr "B") [] (pystr "100.0") [] 1 3
      [] [] [] [] 0 0).zipcode = pystr "100.0"
    ∧ specZipcodeNormalize (pystr "100.0") = pystr "00100"
    ∧ (pystr "100.0" : PyStr) ≠ pystr "00100" := by decide

/-- C8 (amended): parcel construction normalizes the postal code by
stripping whitespace, left-padding with zeros to 5 characters and
keeping only the first 5 characters; in particular `"00100.0"`
normalizes to `"00100"` and `"100"` normalizes to `"00100"`.  (A
trailing decimal fragment is not dropped in general.) -/
theorem C8_zip_normalization :
    (∀ (rs ind loc zc pr nt em ce bda : PyStr) (colli : Nat)
        (peso c1 c2 : Rat),
      (mkGLSParcel rs ind loc zc pr colli peso nt em ce bda c1 c2).zipcode
        = (pyZfill 5 (pyStrip zc)).take 5)
    ∧ (mkGLSParcel (pystr "A") (pystr "B") [] (pystr "00100.0") [] 1 3
        [] [] [] [] 0 0).zipcode = pystr "00100"
    ∧ (mkGLSParcel (pystr "A") (pystr "B") [] (pystr "100") [] 1 3
        [] [] [] [] 0 0).zipcode = pystr "00100" :=
  ⟨fun _ _ _ _ _ _ _ _ _ _ _ _ _ => rfl, by decide, by decide⟩

/-- C9 counterexample: construction with province `"x"` and postal code
`"1.5"` yields province `"X"` (length 1, not exactly 2 characters) and
zipcode `"001.5"` (not 5 decimal digits), refuting the claimed exact
shapes. -/
theorem C9_counterexample :
    (mkGLSParcel (pystr "A") (pystr "B") [] (pystr "1.5") (pystr "x") 1 3
      [] [] [] [] 0 0).provincia = pystr "X"
    ∧ ¬((mkGLSParcel (pystr "A") (pystr "B") [] (pystr "1.5") (pystr "x") 1 3
        [] [] [] [] 0 0).provincia.length = 2)
    ∧ (mkGLSParcel (pystr "A") (pystr "B") [] (pystr "1.5") (pystr "x") 1 3
        [] [] [] [] 0 0).zipcode = pystr "001.5"
    ∧ ¬((mkGLSParcel (pystr "A") (pystr "B") [] (pystr "1.5") (pystr "x") 1 3
        [] [] [] [] 0 0).zipcode.all Char.isDigit = true) := by decide

/-- C9 (amended): immediately after construction every `GLSParcel` has
recipient name and street address of at most 35 characters, note of at
most 40, postal code of exactly 5 characters (zero-padded on the left,
but not necessarily all digits), and province of at most 2 characters,
uppercased; construction is total, never failing on oversized input. -/
theorem C9_wire_safety (rs ind loc zc pr nt em ce bda : PyStr)
    (colli : Nat) (peso c1 c2 : Rat) :
    (mkGLSParcel rs ind loc zc pr colli peso nt em ce bda c1 c2).ragione_sociale.length ≤ 35
    ∧ (mkGLSParcel rs ind loc zc pr colli peso nt em ce bda c1 c2).indirizzo.length ≤ 35
    ∧ (mkGLSParcel rs ind loc zc pr colli peso nt em ce bda c1 c2).note.length ≤ 40
    ∧ (mkGLSParcel rs ind loc zc pr colli peso nt em ce bda c1 c2).zipcode.length = 5
    ∧ (mkGLSParcel rs ind loc zc pr colli peso nt em ce bda c1 c2).provincia.length ≤ 2
    ∧ (mkGLSParcel rs ind loc zc pr colli peso nt em ce bda c1 c2).provincia
        = pyUpper (pr.take 2) := by
  refine ⟨?_, ?_, ?_, ?_, ?_, ?_⟩
  · exact length_truncIf_le 35 rs
  · exact length_truncIf_le 35 ind
  · exact length_truncIf_le 40 nt
  · show ((pyZfill 5 (pyStrip zc)).take 5).length = 5
    have := le_length_pyZfill 5 (pyStrip zc)
    simp only [List.length_take]
    omega
  · show (pyUpper (if pr.length > 2 then pr.take 2 else pr)).length ≤ 2
    simp only [pyUpper, List.length_map]
    exact length_truncIf_le 2 pr
  · show pyUpper (if pr.length > 2 then pr.take 2 else pr) = pyUpper (pr.take 2)
    split
    · rfl
    · rw [List.take_of_length_le (by omega)]

/-- The `uploads` dict contains the inserted key. -/
lemma any_key_dictInsert (k : PyStr) (v : UploadRecord)
    (d : List (PyStr × UploadRecord)) :
    (dictInsert k v d).any (fun p => p.1 = k) = true := by
  unfold dictInsert
  split
  · next hany =>
    simp only [List.any_eq_true, decide_eq_true_eq] at hany
    obtain ⟨p, hp, hpk⟩ := hany
    refine List.any_eq_true.mpr ⟨(k, v), List.mem_map.mpr ⟨p, hp, ?_⟩, by simp⟩
    simp [hpk]
  · simp

/-- The final on-disk state of a direct write is the new content. -/
lemma directWriteStates_getLast (old new : PyStr) :
    (directWriteStates old new).getLast? = some new := by
  have h : directWriteStates old new
      = (old :: (List.range new.length).map (fun k => new.take k))
        ++ [new.take new.length] := by
    unfold directWriteStates
    rw [List.range_succ, List.map_append]
    simp
  rw [h, List.getLast?_concat, List.take_length]

/-- C2 counterexample: with previous ledger content `"OLD"` and a
serializer producing `"NEW"`, the write issued by `mark_uploaded`
passes through the on-disk state `""` (the file truncated by
`open(..., "w")`), which is neither the previous nor the new complete
ledger — the claimed write-then-replace atomicity does not hold. -/
theorem C2_crash_counterexample :
    ¬ (∀ s ∈ markUploadedWriteStates (fun _ => pystr "NEW") (pystr "OLD")
          md5c (pystr "f.xlsx") 0 {} (pystr "S") none (pystr "T") {},
        s = pystr "OLD" ∨ s = pystr "NEW") := by decide

/-- C2 (amended): `mark_uploaded` stores the `UploadRecord` under the
row key and appends an `upload` audit entry to the history, then
persists by rewriting the tracker file in place (truncate on open, then
write front to back): a process killed mid-write can leave a truncated
file — every observable on-disk state is the previous content or a
prefix of the new serialized ledger (the empty prefix included), and
only a completed save leaves the new complete ledger. -/
theorem C2_save_inplace (ser : TrackerData → PyStr) (old : PyStr)
    (md5 : PyStr → PyStr) (fp : PyStr) (idx : Nat) (rd : RowData)
    (ship : PyStr) (resp : Option PyStr) (now : PyStr) (t : TrackerData) :
    (mark_uploaded md5 fp idx rd ship resp now t).history
        = t.history ++ [HistEntry.upload (generate_row_key md5 fp idx rd) now ship]
    ∧ is_uploaded md5 fp idx rd (mark_uploaded md5 fp idx rd ship resp now t) = true
    ∧ (∀ s ∈ markUploadedWriteStates ser old md5 fp idx rd ship resp now t,
        s = old ∨ s <+: ser (mark_uploaded md5 fp idx rd ship resp now t))
    ∧ (markUploadedWriteStates ser old md5 fp idx rd ship resp now t).getLast?
        = some (ser (mark_uploaded md5 fp idx rd ship resp now t)) := by
  refine ⟨rfl, ?_, ?_, ?_⟩
  · unfold is_uploaded mark_uploaded
    exact any_key_dictInsert _ _ _
  · intro s hs
    unfold markUploadedWriteStates directWriteStates at hs
    rcases List.mem_cons.mp hs with h | h
    · exact Or.inl h
    · obtain ⟨k, _, rfl⟩ := List.mem_map.mp h
      exact Or.inr (List.take_prefix _ _)
  · exact directWriteStates_getLast _ _

/-- C7: every remote operation is attempted at most
`GLS_RETRY_ATTEMPTS` (3) times; the backoff delays slept are exactly
`GLS_RETRY_DELAY * 2^k` for each non-final attempt `k` that faulted
(every recorded attempt except the last); and when every attempt
faults, the loop raises a terminal `GLSClientError` wrapping the last
fault, after sleeping 2 s and then 4 s. -/
theorem C7_retry_policy (V : Type) :
    (∀ oracle : Nat → AttemptOutcome V,
      ((executeWithRetry oracle).2.1).length ≤ GLS_RETRY_ATTEMPTS)
    ∧ (∀ oracle : Nat → AttemptOutcome V,
      (executeWithRetry oracle).2.2
        = ((executeWithRetry oracle).2.1).dropLast.map
            (fun k => GLS_RETRY_DELAY * 2 ^ k))
    ∧ (∀ (oracle : Nat → AttemptOutcome V) (msgs : Nat → PyStr),
      (∀ k, k < GLS_RETRY_ATTEMPTS → oracle k = .fault (msgs k)) →
      (executeWithRetry oracle).1
          = Except.error (pystr "Fallito dopo 3 tentativi: " ++ msgs 2)
        ∧ (executeWithRetry oracle).2.2
          = [GLS_RETRY_DELAY * 2 ^ 0, GLS_RETRY_DELAY * 2 ^ 1]) := by
  refine ⟨?_, ?_, ?_⟩
  · intro oracle
    cases h0 : oracle 0 <;>
      cases h1 : oracle 1 <;>
        cases h2 : oracle 2 <;>
          simp [executeWithRetry, retryGo, h0, h1, h2, GLS_RETRY_ATTEMPTS]
  · intro oracle
    cases h0 : oracle 0 <;>
      cases h1 : oracle 1 <;>
        cases h2 : oracle 2 <;>
          simp [executeWithRetry, retryGo, h0, h1, h2, GLS_RETRY_ATTEMPTS,
            GLS_RETRY_DELAY]
  · intro oracle msgs hall
    have h0 := hall 0 (by decide)
    have h1 := hall 1 (by decide)
    have h2 := hall 2 (by decide)
    constructor
    · simp [executeWithRetry, retryGo, h0, h1, h2]
      simp only [← List.append_assoc]
      rw [show ((pystr "Fallito dopo " ++ natRepr GLS_RETRY_ATTEMPTS)
          ++ pystr " tentativi: ") = pystr "Fallito dopo 3 tentativi: " from by decide]
    · simp [executeWithRetry, retryGo, h0, h1, h2, GLS_RETRY_DELAY]

/-- C7 witness: with a remote that faults on all three attempts, the
retry loop surfaces the terminal error wrapping the last fault and
sleeps 2 s then 4 s. -/
theorem C7_retry_policy_witness :
    (∀ k, k < GLS_RETRY_ATTEMPTS →
      timeoutOracle k = .fault ((fun _ : Nat => pystr "timeout") k))
    ∧ (executeWithRetry timeoutOracle).1
        = Except.error (pystr "Fallito dopo 3 tentativi: "
            ++ (fun _ : Nat => pystr "timeout") 2)
    ∧ (executeWithRetry timeoutOracle).2.2
        = [GLS_RETRY_DELAY * 2 ^ 0, GLS_RETRY_DELAY * 2 ^ 1] :=
  ⟨fun _ _ => rfl,
   ((C7_retry_policy XmlDoc).2.2 timeoutOracle (fun _ => pystr "timeout")
     (fun _ _ => rfl)).1,
   ((C7_retry_policy XmlDoc).2.2 timeoutOracle (fun _ => pystr "timeout")
     (fun _ _ => rfl)).2⟩

/-- `pyRangeStep` over an empty range is empty. -/
lemma pyRangeStep_nil (step : Nat) : pyRangeStep 0 step = [] := by
  unfold pyRangeStep
  have h : (0 + step - 1) / step = 0 := by
    cases step with
    | zero => rfl
    | succ n => exact Nat.div_eq_of_lt (by omega)
  rw [h]
  rfl

/-- The ceiling-division batch count of a non-empty input splits off one
batch. -/
lemma rangeCount_succ (stop step : Nat) (h : 0 < stop) (hs : 0 < step) :
    (stop + step - 1) / step = (stop - step + step - 1) / step + 1 := by
  rcases le_or_lt stop step with hle | hlt
  · have h1 : stop - step = 0 := by omega
    rw [h1]
    have h2 : (0 + step - 1) / step = 0 := Nat.div_eq_of_lt (by omega)
    have h3 : (stop + step - 1) / step = 1 := by
      have e : stop + step - 1 = (stop - 1) + step := by omega
      rw [e, Nat.add_div_right _ hs, Nat.div_eq_of_lt (by omega)]
    rw [h2, h3]
  · have e : stop + step - 1 = (stop - step + step - 1) + step := by omega
    rw [e, Nat.add_div_right _ hs]

/-- The slicing loop peels off the first `maxB` elements and recurses. -/
lemma batchSlices_cons (maxB : Nat) (hm : 0 < maxB) (l : List α) (hl : l ≠ []) :
    batchSlices maxB l = l.take maxB :: batchSlices maxB (l.drop maxB) := by
  have hlen : 0 < l.length := List.length_pos.mpr hl
  simp only [batchSlices, pyRangeStep, List.length_drop]
  rw [rangeCount_succ l.length maxB hlen hm, List.range_succ_eq_map]
  simp only [List.map_cons, List.map_map]
  congr 1
  · simp
  · apply List.map_congr_left
    intro k _
    simp only [Function.comp_apply]
    rw [List.drop_drop]
    congr 2
    rw [Nat.succ_mul]
    omega

/-- The source's range-and-slice chunking agrees with the recursive
take/drop chunking. -/
lemma batchSlices_eq_chunkList (maxB : Nat) (hm : 0 < maxB) (l : List α) :
    batchSlices maxB l = chunkList maxB l := by
  have H : ∀ (n : Nat) (l : List α), l.length ≤ n →
      batchSlices maxB l = chunkList maxB l := by
    intro n
    induction n with
    | zero =>
        intro l hl
        have : l = [] := List.eq_nil_of_length_eq_zero (by omega)
        subst this
        simp [batchSlices, pyRangeStep_nil, chunkList]
    | succ n ih =>
        intro l hl
        cases l with
        | nil => simp [batchSlices, pyRangeStep_nil, chunkList]
        | cons x xs =>
            obtain ⟨m, rfl⟩ : ∃ m, maxB = m + 1 := ⟨maxB - 1, by omega⟩
            rw [batchSlices_cons _ hm _ (by simp)]
            rw [show chunkList (m + 1) (x :: xs)
              = (x :: xs).take (m + 1) :: chunkList (m + 1) ((x :: xs).drop (m + 1))
              from by simp [chunkList]]
            congr 1
            apply ih
            simp only [List.length_drop, List.length_cons]
            simp only [List.length_cons] at hl
            omega
  exact H l.length l le_rfl

/-- Concatenating the slices gives back the input in order. -/
lemma batchSlices_flatten (maxB : Nat) (hm : 0 < maxB) (l : List α) :
    (batchSlices maxB l).flatten = l := by
  have H : ∀ (n : Nat) (l : List α), l.length ≤ n →
      (batchSlices maxB l).flatten = l := by
    intro n
    induction n with
    | zero =>
        intro l hl
        have : l = [] := List.eq_nil_of_length_eq_zero (by omega)
        subst this
        simp [batchSlices, pyRangeStep_nil]
    | succ n ih =>
        intro l hl
        cases l with
        | nil => simp [batchSlices, pyRangeStep_nil]
        | cons x xs =>
            rw [batchSlices_cons _ hm _ (by simp)]
            rw [List.flatten_cons]
            rw [ih (((x :: xs).drop maxB)) (by
              simp only [List.length_drop, List.length_cons]
              simp only [List.length_cons] at hl
              omega)]
            exact List.take_append_drop _ _
  exact H l.length l le_rfl

/-- An input of exactly twice the batch size yields exactly two slices. -/
lemma batchSlices_two (maxB : Nat) (hm : 0 < maxB) (l : List α)
    (hl : l.length = 2 * maxB) : (batchSlices maxB l).length = 2 := by
  simp only [batchSlices, pyRangeStep, List.length_map, List.length_range, hl]
  have e : 2 * maxB + maxB - 1 = (maxB - 1) + maxB * 2 := by omega
  rw [e, Nat.add_mul_div_left _ _ hm, Nat.div_eq_of_lt (by omega)]

/-- C3: `_upload_batches` partitions its input into consecutive groups
of at most `GLS_MAX_PARCELS_PER_BATCH` (400) parcels whose
concatenation is the original list (order preserved within and across
groups); a list of exactly `2 * 400` parcels produces exactly 2
submission calls; and `add_parcels` fails fast with a client-side error
on more than 400 parcels, for every remote behaviour (no remote call is
made). -/
theorem C3_batch_size_invariant :
    (∀ (l : List GLSParcel), ∀ c ∈ batchSlices GLS_MAX_PARCELS_PER_BATCH l,
        c.length ≤ GLS_MAX_PARCELS_PER_BATCH)
    ∧ (∀ l : List GLSParcel, (batchSlices GLS_MAX_PARCELS_PER_BATCH l).flatten = l)
    ∧ (∀ l : List GLSParcel, l.length = 2 * GLS_MAX_PARCELS_PER_BATCH →
        (batchSlices GLS_MAX_PARCELS_PER_BATCH l).length = 2)
    ∧ (∀ (oracle : Nat → AttemptOutcome XmlDoc) (parcels : List GLSParcel),
        parcels.length > GLS_MAX_PARCELS_PER_BATCH →
        add_parcels oracle parcels
          = Except.error (pystr "Massimo 400 spedizioni per batch")) := by
  refine ⟨?_, ?_, ?_, ?_⟩
  · intro l c hc
    simp only [batchSlices, List.mem_map] at hc
    obtain ⟨s, _, rfl⟩ := hc
    simp [List.length_take]
  · intro l
    exact batchSlices_flatten _ (by decide) l
  · intro l hl
    exact batchSlices_two _ (by decide) l hl
  · intro oracle parcels h
    unfold add_parcels
    rw [if_pos h]
    exact congrArg Except.error (by decide)

/-- C3 witness: the invariant evaluated on concrete inputs — a
1-element list is its own single chunk; 800 identical parcels make 2
calls; 401 parcels are rejected client-side. -/
theorem C3_batch_size_invariant_witness :
    ([sampleParcel] ∈ batchSlices GLS_MAX_PARCELS_PER_BATCH [sampleParcel]
      ∧ [sampleParcel].length ≤ GLS_MAX_PARCELS_PER_BATCH)
    ∧ ((List.replicate 800 sampleParcel).length = 2 * GLS_MAX_PARCELS_PER_BATCH
      ∧ (batchSlices GLS_MAX_PARCELS_PER_BATCH
          (List.replicate 800 sampleParcel)).length = 2)
    ∧ ((List.replicate 401 sampleParcel).length > GLS_MAX_PARCELS_PER_BATCH
      ∧ add_parcels timeoutOracle (List.replicate 401 sampleParcel)
          = Except.error (pystr "Massimo 400 spedizioni per batch")) :=
  ⟨⟨by decide, C3_batch_size_invariant.1 [sampleParcel] [sampleParcel] (by decide)⟩,
   ⟨by rw [List.length_replicate]; decide,
    C3_batch_size_invariant.2.2.1 _ (by rw [List.length_replicate]; decide)⟩,
   ⟨by rw [List.length_replicate]; decide,
    C3_batch_size_invariant.2.2.2 timeoutOracle _
      (by rw [List.length_replicate]; decide)⟩⟩

/-- C2 witness: a mid-write state `"NE"` observed during the concrete
save is a strict prefix of the new content `"NEW"`. -/
theorem C2_save_inplace_witness :
    (pystr "NE") ∈ markUploadedWriteStates (fun _ => pystr "NEW") (pystr "OLD")
        md5c (pystr "f.xlsx") 0 {} (pystr "S") none (pystr "T") {}
    ∧ ((pystr "NE") = pystr "OLD" ∨ (pystr "NE") <+: pystr "NEW") :=
  ⟨by decide,
    (C2_save_inplace (fun _ => pystr "NEW") (pystr "OLD") md5c (pystr "f.xlsx")
      0 {} (pystr "S") none (pystr "T") {}).2.2.1 _ (by decide)⟩

/-- A `bda`-tagged child sets the response's `bda` to its text. -/
lemma applyChild_bda_of (r : GLSResponse) (c : XmlNode)
    (hc : pyLower c.tag = pystr "bda") :
    applyChild r c = { r with bda := c.text } := by
  unfold applyChild
  rw [hc]
  simp only [if_neg (by decide : ¬(pystr "bda" = pystr "numerospedizione" ∨ pystr "bda" = pystr "parcelid" ∨ pystr "bda" = pystr "sped")),
    if_neg (by decide : ¬(pystr "bda" = pystr "esito" ∨ pystr "bda" = pystr "result")),
    if_neg (by decide : ¬(pystr "bda" = pystr "errore" ∨ pystr "bda" = pystr "error" ∨ pystr "bda" = pystr "errormessage")),
    if_neg (by decide : ¬(pystr "bda" = pystr "pdf" ∨ pystr "bda" = pystr "pdfbase64" ∨ pystr "bda" = pystr "label")),
    if_pos (rfl : pystr "bda" = pystr "bda")]
  simp

/-- A child with any other tag leaves the response's `bda` unchanged. -/
lemma applyChild_bda_of_ne (r : GLSResponse) (c : XmlNode)
    (hc : ¬ pyLower c.tag = pystr "bda") :
    (applyChild r c).bda = r.bda := by
  unfold applyChild
  dsimp only
  split_ifs <;> simp_all

/-- The field loop's effect on `bda` is the fold of the `bda`-tagged
children only. -/
lemma foldl_applyChild_bda (l : List XmlNode) (r : GLSResponse) :
    (l.foldl applyChild r).bda
      = (l.filter (fun c => pyLower c.tag = pystr "bda")).foldl
          (fun _ c => c.text) r.bda := by
  induction l generalizing r with
  | nil => rfl
  | cons c l ih =>
      rw [List.foldl_cons]
      by_cases hc : pyLower c.tag = pystr "bda"
      · rw [applyChild_bda_of r c hc]
        rw [ih]
        rw [List.filter_cons_of_pos (by simp [hc])]
        rfl
      · rw [ih, applyChild_bda_of_ne r c hc]
        rw [List.filter_cons_of_neg (by simp [hc])]

/-- Folding texts over a start value keeps the last text, if any. -/
lemma foldl_text_eq (l : List XmlNode) (x : PyStr) :
    l.foldl (fun _ c => c.text) x = ((l.map XmlNode.text).getLast?).getD x := by
  induction l generalizing x with
  | nil => rfl
  | cons c l ih =>
      rw [List.foldl_cons, ih]
      cases l with
      | nil => simp
      | cons d m =>
          have hs : (List.map XmlNode.text (d :: m)).getLast?.isSome := by
            rw [List.getLast?_isSome]
            simp
          obtain ⟨y, hy⟩ := Option.isSome_iff_exists.mp hs
          simp [List.map_cons, List.getLast?_cons_cons, hy]
          rw [show List.map XmlNode.text (d :: m) = XmlNode.text d :: List.map XmlNode.text m from rfl] at hy
          simp [hy]

/-- With at least one entry, parsing maps `parseEntry` over the
enumerated entries. -/
lemma parse_wellFormed_of_entries_ne (root : XmlNode) (parcels : List GLSParcel)
    (h : parcelEntries root ≠ []) :
    parse_add_parcel_response (.wellFormed root) parcels
      = (parcelEntries root).enum.map (fun ie => parseEntry parcels ie.1 ie.2) := by
  unfold parse_add_parcel_response
  have hne : (parcelEntries root).enum.map (fun ie => parseEntry parcels ie.1 ie.2) ≠ [] := by
    rw [Ne, List.map_eq_nil_iff]
    intro he
    apply h
    have := congrArg List.length he
    rw [List.enum_length] at this
    exact List.eq_nil_of_length_eq_zero this
  simp only [hne, if_neg hne]
  simp

/-- The response at index `i` is the parse of entry `i`. -/
lemma parse_get?_of_entry (root : XmlNode) (parcels : List GLSParcel) (i : Nat)
    (entry : XmlNode) (hent : (parcelEntries root).get? i = some entry) :
    (parse_add_parcel_response (.wellFormed root) parcels).get? i
      = some (parseEntry parcels i entry) := by
  have hne : parcelEntries root ≠ [] := by
    intro he
    rw [he] at hent
    simp at hent
  rw [parse_wellFormed_of_entries_ne root parcels hne]
  rw [List.get?_map, List.get?_enum, hent]
  rfl

/-- C4: for a non-empty batch, a well-formed response with zero
parseable parcel entries yields exactly one failure response per
submitted parcel with the raw body truncated to 100 characters as error
text; a malformed response yields exactly one failure per parcel with a
parse-error message; and on each parsed entry with a position inside
the request, the client reference is the last `bda` field of the entry
when one is present, otherwise it is backfilled positionally from the
original request order. -/
theorem C4_parse_failure_contract :
    (∀ (parcels : List GLSParcel) (root : XmlNode), parcels ≠ [] →
      parcelEntries root = [] →
      parse_add_parcel_response (.wellFormed root) parcels
        = parcels.map (fun p =>
            { bda := p.bda, esito := pystr "KO",
              error_message := pystr "Risposta non parsabile: "
                ++ (if root.text = [] then xmlToString root else root.text).take 100 }))
    ∧ (∀ (parcels : List GLSParcel) (err : PyStr),
      parse_add_parcel_response (.malformed err) parcels
        = parcels.map (fun p =>
            { bda := p.bda, esito := pystr "KO",
              error_message := pystr "XML non valido: " ++ err }))
    ∧ (∀ (parcels : List GLSParcel) (root : XmlNode) (i : Nat) (entry : XmlNode)
        (r : GLSResponse) (hi : i < parcels.length),
        (parcelEntries root).get? i = some entry →
        (parse_add_parcel_response (.wellFormed root) parcels).get? i = some r →
        r.bda = (((entry.children.filter
            (fun c => pyLower c.tag = pystr "bda")).map XmlNode.text).getLast?).getD
          (parcels.get ⟨i, hi⟩).bda) := by
  refine ⟨?_, ?_, ?_⟩
  · intro parcels root hp hent
    unfold parse_add_parcel_response
    simp only [hent]
    rfl
  · intro parcels err
    rfl
  · intro parcels root i entry r hi hent hr
    rw [parse_get?_of_entry root parcels i entry hent] at hr
    injection hr with hr
    subst hr
    unfold parseEntry
    rw [List.get?_eq_get hi]
    simp only []
    rw [foldl_applyChild_bda, foldl_text_eq]

/-- C10: a well-formed response with `k ≥ 1` entries parses to exactly
`k` responses regardless of the number `n` of submitted parcels;
entries at positions `≥ n` get no positional `bda` backfill; the
reconciliation loop of `_upload_batches` completes without an
out-of-range index access exactly when `k ≤ n` (otherwise it raises
`IndexError`, modelled as `none`); and a completed reconciliation adds
exactly `k` outcomes, so when `k < n` the remaining `n - k` parcels of
the batch are silently left uncounted. -/
theorem C10_response_count :
    (∀ (parcels : List GLSParcel) (root : XmlNode), parcelEntries root ≠ [] →
      (parse_add_parcel_response (.wellFormed root) parcels).length
        = (parcelEntries root).length)
    ∧ (∀ (parcels : List GLSParcel) (root : XmlNode) (i : Nat) (entry : XmlNode)
        (r : GLSResponse), (parcelEntries root).get? i = some entry →
        parcels.length ≤ i →
        (parse_add_parcel_response (.wellFormed root) parcels).get? i = some r →
        r.bda = (((entry.children.filter
            (fun c => pyLower c.tag = pystr "bda")).map XmlNode.text).getLast?).getD [])
    ∧ (∀ (md5 : PyStr → PyStr) (fp now : PyStr) (rs : List GLSResponse)
        (bi : List (Nat × RowData)) (res : GLSUploadResult) (tr : TrackerData),
        (reconcileResponses md5 fp now rs bi res tr).isSome = true ↔ rs.length ≤ bi.length)
    ∧ (∀ (md5 : PyStr → PyStr) (fp now : PyStr) (rs : List GLSResponse)
        (bi : List (Nat × RowData)) (res res' : GLSUploadResult)
        (tr tr' : TrackerData),
        reconcileResponses md5 fp now rs bi res tr = some (res', tr') →
        res'.uploaded + res'.failed = res.uploaded + res.failed + rs.length) := by
  refine ⟨?_, ?_, ?_, ?_⟩
  · intro parcels root h
    rw [parse_wellFormed_of_entries_ne root parcels h]
    rw [List.length_map, List.enum_length]
  · intro parcels root i entry r hent hn hr
    rw [parse_get?_of_entry root parcels i entry hent] at hr
    injection hr with hr
    subst hr
    unfold parseEntry
    have : parcels.get? i = none := List.get?_eq_none.mpr hn
    rw [this]
    simp only []
    rw [foldl_applyChild_bda, foldl_text_eq]
  · intro md5 fp now rs
    induction rs with
    | nil => intro bi res tr; simp [reconcileResponses]
    | cons r rs ih =>
        intro bi res tr
        cases bi with
        | nil => simp [reconcileResponses]
        | cons b bis =>
            obtain ⟨idx, rd⟩ := b
            by_cases hs : r.is_success
            · rw [show reconcileResponses md5 fp now (r :: rs) ((idx, rd) :: bis) res tr
                = reconcileResponses md5 fp now rs bis (res.add_success r)
                    (mark_uploaded md5 fp idx rd r.numero_spedizione (some r.esito) now tr)
                from by simp [reconcileResponses, hs]]
              rw [ih bis (res.add_success r) _]
              simp
            · rw [show reconcileResponses md5 fp now (r :: rs) ((idx, rd) :: bis) res tr
                = reconcileResponses md5 fp now rs bis
                    (res.add_failure (if r.error_message = [] then pystr "Errore sconosciuto"
                      else r.error_message) r.bda) tr
                from by simp [reconcileResponses, hs]]
              rw [ih bis _ tr]
              simp
  · intro md5 fp now rs
    induction rs with
    | nil =>
        intro bi res res' tr tr' h
        cases bi with
        | nil =>
            simp [reconcileResponses] at h
            simp [h.1.symm]
        | cons b bis =>
            simp [reconcileResponses] at h
            simp [h.1.symm]
    | cons r rs ih =>
        intro bi res res' tr tr' h
        cases bi with
        | nil => simp [reconcileResponses] at h
        | cons b bis =>
            obtain ⟨idx, rd⟩ := b
            by_cases hs : r.is_success
            · rw [show reconcileResponses md5 fp now (r :: rs) ((idx, rd) :: bis) res tr
                = reconcileResponses md5 fp now rs bis (res.add_success r)
                    (mark_uploaded md5 fp idx rd r.numero_spedizione (some r.esito) now tr)
                from by simp [reconcileResponses, hs]] at h
              have := ih bis (res.add_success r) res' _ tr' h
              simp [GLSUploadResult.add_success] at this
              rw [List.length_cons]
              omega
            · rw [show reconcileResponses md5 fp now (r :: rs) ((idx, rd) :: bis) res tr
                = reconcileResponses md5 fp now rs bis
                    (res.add_failure (if r.error_message = [] then pystr "Errore sconosciuto"
                      else r.error_message) r.bda) tr
                from by simp [reconcileResponses, hs]] at h
              have := ih bis _ res' tr tr' h
              simp [GLSUploadResult.add_failure] at this
              rw [List.length_cons]
              omega

/-- C4 witness: the contract evaluated on a one-parcel batch against a
document with no entries (body `"boom"`) and against a document with
one `Parcel` entry that has no `bda` field. -/
theorem C4_parse_failure_contract_witness :
    (([sampleParcel] : List GLSParcel) ≠ []
      ∧ parcelEntries noEntriesRoot = []
      ∧ parse_add_parcel_response (.wellFormed noEntriesRoot) [sampleParcel]
          = [sampleParcel].map (fun p =>
              { bda := p.bda, esito := pystr "KO",
                error_message := pystr "Risposta non parsabile: "
                  ++ (if noEntriesRoot.text = [] then xmlToString noEntriesRoot
                      else noEntriesRoot.text).take 100 }))
    ∧ ((0 : Nat) < [sampleParcel].length
      ∧ (parcelEntries wfRoot).get? 0
          = some (XmlNode.mk (pystr "Parcel") []
              [XmlNode.mk (pystr "Esito") (pystr "OK") []])
      ∧ (parse_add_parcel_response (.wellFormed wfRoot) [sampleParcel]).get? 0
          = some { esito := pystr "OK" }
      ∧ ({ esito := pystr "OK" } : GLSResponse).bda
          = ((((XmlNode.mk (pystr "Parcel") []
                [XmlNode.mk (pystr "Esito") (pystr "OK") []]).children.filter
                  (fun c => pyLower c.tag = pystr "bda")).map XmlNode.text).getLast?).getD
              ([sampleParcel].get ⟨0, by decide⟩).bda) :=
  ⟨⟨by decide, rfl,
    C4_parse_failure_contract.1 [sampleParcel] noEntriesRoot (by decide) rfl⟩,
   ⟨by decide, rfl, rfl,
    C4_parse_failure_contract.2.2 [sampleParcel] wfRoot 0
      (XmlNode.mk (pystr "Parcel") [] [XmlNode.mk (pystr "Esito") (pystr "OK") []])
      { esito := pystr "OK" } (by decide) rfl rfl⟩⟩

/-- C10 witness: one entry against zero submitted parcels parses to one
response with empty `bda`; reconciling one response against an empty
index list is an index error, and against one row adds one outcome. -/
theorem C10_response_count_witness :
    (parcelEntries wfRoot ≠ []
      ∧ (parse_add_parcel_response (.wellFormed wfRoot) []).length
          = (parcelEntries wfRoot).length)
    ∧ ((parcelEntries wfRoot).get? 0
          = some (XmlNode.mk (pystr "Parcel") []
              [XmlNode.mk (pystr "Esito") (pystr "OK") []])
      ∧ ([] : List GLSParcel).length ≤ 0
      ∧ (parse_add_parcel_response (.wellFormed wfRoot) []).get? 0
          = some { esito := pystr "OK" }
      ∧ ({ esito := pystr "OK" } : GLSResponse).bda
          = ((((XmlNode.mk (pystr "Parcel") []
                [XmlNode.mk (pystr "Esito") (pystr "OK") []]).children.filter
                  (fun c => pyLower c.tag = pystr "bda")).map XmlNode.text).getLast?).getD [])
    ∧ ((reconcileResponses md5c (pystr "f.xlsx") (pystr "T")
          [okResponse (pystr "S1")] [] {} {}).isSome = true
        ↔ ([okResponse (pystr "S1")] : List GLSResponse).length ≤ ([] : List (Nat × RowData)).length)
    ∧ (reconcileResponses md5c (pystr "f.xlsx") (pystr "T")
          [okResponse (pystr "S1")] [(0, sampleRow 'a')] {} {} = some (resW, trW)
      ∧ resW.uploaded + resW.failed
          = ({} : GLSUploadResult).uploaded + ({} : GLSUploadResult).failed
            + ([okResponse (pystr "S1")] : List GLSResponse).length) :=
  ⟨⟨by intro h; exact absurd (congrArg List.length h) (by decide),
    C10_response_count.1 [] wfRoot
      (by intro h; exact absurd (congrArg List.length h) (by decide))⟩,
   ⟨rfl, by decide, rfl,
    C10_response_count.2.1 [] wfRoot 0
      (XmlNode.mk (pystr "Parcel") [] [XmlNode.mk (pystr "Esito") (pystr "OK") []])
      { esito := pystr "OK" } rfl (by decide) rfl⟩,
   C10_response_count.2.2.1 md5c (pystr "f.xlsx") (pystr "T")
     [okResponse (pystr "S1")] [] {} {},
   ⟨by decide,
    C10_response_count.2.2.2 md5c (pystr "f.xlsx") (pystr "T")
      [okResponse (pystr "S1")] [(0, sampleRow 'a')] {} resW {} trW (by decide)⟩⟩

/-- `Nat.toDigitsCore` never empties a non-empty accumulator. -/
lemma toDigitsCore_ne_nil (b : Nat) :
    ∀ (fuel n : Nat) (ds : List Char), ds ≠ [] → Nat.toDigitsCore b fuel n ds ≠ [] := by
  intro fuel
  induction fuel with
  | zero => intro n ds h; simpa [Nat.toDigitsCore] using h
  | succ f ih =>
      intro n ds h
      simp only [Nat.toDigitsCore]
      split
      · simp
      · exact ih _ _ (by simp)

/-- The decimal rendering of a natural number is never empty. -/
lemma natRepr_ne_nil (n : Nat) : natRepr n ≠ [] := by
  have e : natRepr n = Nat.toDigits 10 n := rfl
  rw [e, Nat.toDigits]
  simp only [Nat.toDigitsCore]
  split
  · simp
  · exact toDigitsCore_ne_nil 10 _ _ _ (by simp)

/-- C6: when the submit call for a group raises a client-level error
(retry budget exhausted), `_upload_batches` marks every parcel of that
group Failed with the exception text — failed count up by the group
size, one `ERRORE <row>: <text>` entry per row, uploaded unchanged —
and continues with the next group instead of aborting; in the spec's
scenario (3 rows, max batch size 2, group 1 fully succeeding, group 2
exhausting its retries) the aggregate is uploaded 2, skipped 0,
failed 1. -/
theorem C6_group_failure_isolation :
    (∀ (submit : List GLSParcel → Except PyStr (List GLSResponse))
        (md5 : PyStr → PyStr) (fp now : PyStr) (batch : List GLSParcel)
        (bi : List (Nat × RowData))
        (rest : List (List GLSParcel × List (Nat × RowData)))
        (res : GLSUploadResult) (tr : TrackerData) (e : PyStr),
      submit batch = Except.error e →
      uploadBatchesGo submit md5 fp now ((batch, bi) :: rest) res tr
        = uploadBatchesGo submit md5 fp now rest
            (bi.foldl (fun acc p => acc.add_failure e (natRepr p.1)) res) tr)
    ∧ (∀ (bi : List (Nat × RowData)) (res : GLSUploadResult) (e : PyStr),
      (bi.foldl (fun acc p => acc.add_failure e (natRepr p.1)) res).failed
          = res.failed + bi.length
      ∧ (bi.foldl (fun acc p => acc.add_failure e (natRepr p.1)) res).errors
          = res.errors
            ++ bi.map (fun p => pystr "ERRORE " ++ natRepr p.1 ++ pystr ": " ++ e)
      ∧ (bi.foldl (fun acc p => acc.add_failure e (natRepr p.1)) res).uploaded
          = res.uploaded)
    ∧ ((process_file_core 2 scenarioSubmit md5c true (pystr "f.xlsx") (pystr "T")
          1 3 scenarioRows {}).map (fun p => (p.1.uploaded, p.1.skipped, p.1.failed))
        = some (2, 0, 1)) := by
  refine ⟨?_, ?_, ?_⟩
  · intro submit md5 fp now batch bi rest res tr e h
    conv_lhs => rw [uploadBatchesGo]
    rw [h]
  · intro bi
    induction bi with
    | nil => intro res e; simp
    | cons b bis ih =>
        intro res e
        rw [List.foldl_cons]
        obtain ⟨h1, h2, h3⟩ := ih (res.add_failure e (natRepr b.1)) e
        refine ⟨?_, ?_, ?_⟩
        · rw [h1]
          simp [GLSUploadResult.add_failure]
          omega
        · rw [h2]
          simp [GLSUploadResult.add_failure, if_neg (natRepr_ne_nil b.1)]
        · rw [h3]
          simp [GLSUploadResult.add_failure]
  · decide

/-- C6 witness: the isolation step evaluated on a concrete failing
group: the scenario's submit rejects a 1-parcel group with the
exhausted-retries error, and the loop records the failures and moves
on. -/
theorem C6_group_failure_isolation_witness :
    scenarioSubmit [sampleParcel]
        = Except.error (pystr "Fallito dopo 3 tentativi: timeout")
    ∧ uploadBatchesGo scenarioSubmit md5c (pystr "f.xlsx") (pystr "T")
        [([sampleParcel], [(0, sampleRow 'a')])] {} {}
      = uploadBatchesGo scenarioSubmit md5c (pystr "f.xlsx") (pystr "T") []
          ([(0, sampleRow 'a')].foldl
            (fun acc p =>
              acc.add_failure (pystr "Fallito dopo 3 tentativi: timeout")
                (natRepr p.1)) {}) {} :=
  ⟨rfl,
   C6_group_failure_isolation.1 scenarioSubmit md5c (pystr "f.xlsx") (pystr "T")
     [sampleParcel] [(0, sampleRow 'a')] [] {} {}
     (pystr "Fallito dopo 3 tentativi: timeout") rfl⟩

/-- `countKey` over a cons counts the head when its key matches. -/
lemma countKey_cons (k : PyStr) (q : PyStr × UploadRecord) (d : List (PyStr × UploadRecord)) :
    countKey k (q :: d) = (if q.1 = k then 1 else 0) + countKey k d := by
  unfold countKey
  by_cases h : q.1 = k
  · rw [List.filter_cons_of_pos (by simp [h]), if_pos h]
    simp only [List.length_cons]
    omega
  · rw [List.filter_cons_of_neg (by simp [h]), if_neg h]
    simp

/-- `countKey` distributes over append. -/
lemma countKey_append (k : PyStr) (d e : List (PyStr × UploadRecord)) :
    countKey k (d ++ e) = countKey k d + countKey k e := by
  unfold countKey
  rw [List.filter_append, List.length_append]

/-- A key occurring nowhere is counted zero times. -/
lemma countKey_eq_zero (k : PyStr) (d : List (PyStr × UploadRecord))
    (h : ∀ q ∈ d, q.1 ≠ k) : countKey k d = 0 := by
  unfold countKey
  rw [List.length_eq_zero, List.filter_eq_nil_iff]
  intro q hq
  simp [h q hq]

/-- A dict assignment leaves exactly one entry under the assigned key
(given the dict invariant of unique keys). -/
lemma countKey_dictInsert (k : PyStr) (v : UploadRecord)
    (d : List (PyStr × UploadRecord)) (h : noDupKeys d) :
    countKey k (dictInsert k v d) = 1 := by
  induction d with
  | nil => simp [dictInsert, countKey]
  | cons p d ih =>
      unfold noDupKeys at h
      rw [List.map_cons, List.nodup_cons] at h
      obtain ⟨hnotin, hnd⟩ := h
      unfold dictInsert
      by_cases hk : p.1 = k
      · rw [if_pos (by simp [hk])]
        have hdk : ∀ q ∈ d, q.1 ≠ k := by
          intro q hq hqk
          apply hnotin
          rw [hk, ← hqk]
          exact List.mem_map_of_mem Prod.fst hq
        rw [List.map_cons, if_pos hk]
        rw [show d.map (fun q => if q.1 = k then (k, v) else q) = d from by
          rw [show d = d.map id from (List.map_id d).symm]
          simp only [List.map_map]
          apply List.map_congr_left
          intro q hq
          simp [if_neg (hdk q (by simpa using hq))]]
        rw [countKey_cons, if_pos rfl, countKey_eq_zero k d hdk]
      · by_cases hany : d.any (fun q => decide (q.1 = k)) = true
        · rw [if_pos (by simp only [List.any_cons]; rw [hany]; simp)]
          have hins := ih hnd
          unfold dictInsert at hins
          rw [if_pos hany] at hins
          rw [List.map_cons, if_neg hk, countKey_cons, if_neg hk]
          simpa using hins
        · have hcond : ¬((p :: d).any (fun q => decide (q.1 = k)) = true) := by
            simp only [List.any_cons, Bool.or_eq_true, decide_eq_true_eq, not_or]
            exact ⟨hk, fun hc => hany hc⟩
          rw [if_neg hcond]
          rw [countKey_append, countKey_cons, if_neg hk]
          rw [countKey_eq_zero k d (by
            intro q hq hqk
            exact hany (List.any_eq_true.mpr ⟨q, hq, by simp [hqk]⟩))]
          simp [countKey]

/-- When every row is already in the ledger and `skip_uploaded` is on,
the dedup-and-build fold records one Skipped per row and builds
nothing. -/
lemma prepare_foldl_skip (md5 : PyStr → PyStr) (fp : PyStr)
    (tracker : TrackerData) (colli : Nat) (peso : Rat) :
    ∀ (rows : List (Nat × RowData)) (res : GLSUploadResult)
      (ps : List GLSParcel) (ris : List (Nat × RowData)),
    (∀ r ∈ rows, is_uploaded md5 fp r.1 r.2 tracker = true) →
    rows.foldl (prepareStep md5 true fp tracker colli peso) (res, ps, ris)
      = ({ res with
            skipped := res.skipped + rows.length
            errors := res.errors ++ rows.map (fun r =>
              pystr "SKIP: Riga " ++ natRepr r.1 ++ pystr " già caricata") },
         ps, ris) := by
  intro rows
  induction rows with
  | nil => intro res ps ris _; simp
  | cons row rows ih =>
      intro res ps ris hall
      rw [List.foldl_cons]
      rw [show prepareStep md5 true fp tracker colli peso (res, ps, ris) row
        = (res.add_skip (pystr "Riga " ++ natRepr row.1 ++ pystr " già caricata"),
            ps, ris) from by
          unfold prepareStep
          rw [if_pos (by simp [hall row (by simp)])]]
      rw [ih _ _ _ (fun r hr => hall r (by simp [hr]))]
      unfold GLSUploadResult.add_skip
      rw [if_neg (by simp [pystr])]
      simp only [List.length_cons, List.map_cons]
      refine congrArg (fun z => (z, ps, ris)) ?_
      congr 1
      · omega
      · rw [List.append_assoc]
        simp
        rw [← List.append_assoc]
        rw [show pystr "SKIP: " ++ pystr "Riga " = pystr "SKIP: Riga " from by decide]

/-- C1: after `mark_uploaded`, `is_uploaded` holds for the same file,
row and row data (the key derivation being a deterministic function of
file stem, row index and the hash of the identifying fields), and the
`uploads` dict holds exactly one record under that key; a second run of
the `process_file` loop with `skip_uploaded` over rows that are all in
the ledger records every row as Skipped, never submits (the outcome is
the same for every submit behaviour), and leaves the ledger — hence the
one record per key — unchanged. -/
theorem C1_idempotency (md5 : PyStr → PyStr) (fp : PyStr) (idx : Nat)
    (rd : RowData) (ship : PyStr) (resp : Option PyStr) (now now2 : PyStr)
    (t : TrackerData) (maxB colli : Nat) (peso : Rat)
    (submit : List GLSParcel → Except PyStr (List GLSResponse))
    (rows : List (Nat × RowData)) (t2 : TrackerData) :
    is_uploaded md5 fp idx rd (mark_uploaded md5 fp idx rd ship resp now t) = true
    ∧ (noDupKeys t.uploads →
        countKey (generate_row_key md5 fp idx rd)
          (mark_uploaded md5 fp idx rd ship resp now t).uploads = 1)
    ∧ ((∀ r ∈ rows, is_uploaded md5 fp r.1 r.2 t2 = true) →
        process_file_core maxB submit md5 true fp now2 colli peso rows t2
          = some ({ total := rows.length
                    skipped := rows.length
                    errors := rows.map (fun r =>
                      pystr "SKIP: Riga " ++ natRepr r.1 ++ pystr " già caricata") },
              t2)) := by
  refine ⟨?_, ?_, ?_⟩
  · unfold is_uploaded mark_uploaded
    exact any_key_dictInsert _ _ _
  · intro h
    unfold mark_uploaded
    exact countKey_dictInsert _ _ _ h
  · intro hall
    unfold process_file_core
    rw [show prepareRows md5 true fp t2 colli peso rows
      = ({ ({ total := rows.length } : GLSUploadResult) with
            skipped := ({ total := rows.length } : GLSUploadResult).skipped + rows.length
            errors := ({ total := rows.length } : GLSUploadResult).errors
              ++ rows.map (fun r =>
                pystr "SKIP: Riga " ++ natRepr r.1 ++ pystr " già caricata") },
          [], [])
      from prepare_foldl_skip md5 fp t2 colli peso rows _ [] [] hall]
    simp

/-- C1 witness: marking row 0 of `f.xlsx` uploaded in a fresh ledger
makes it reported as uploaded with exactly one record, and re-running
the loop over that row skips it and leaves the ledger unchanged. -/
theorem C1_idempotency_witness :
    noDupKeys ({} : TrackerData).uploads
    ∧ is_uploaded md5c (pystr "f.xlsx") 0 (sampleRow 'a')
        (mark_uploaded md5c (pystr "f.xlsx") 0 (sampleRow 'a') (pystr "S1")
          none (pystr "T") {}) = true
    ∧ countKey (generate_row_key md5c (pystr "f.xlsx") 0 (sampleRow 'a'))
        (mark_uploaded md5c (pystr "f.xlsx") 0 (sampleRow 'a') (pystr "S1")
          none (pystr "T") {}).uploads = 1
    ∧ (∀ r ∈ [((0 : Nat), sampleRow 'a')],
        is_uploaded md5c (pystr "f.xlsx") r.1 r.2
          (mark_uploaded md5c (pystr "f.xlsx") 0 (sampleRow 'a') (pystr "S1")
            none (pystr "T") {}) = true)
    ∧ process_file_core 2 scenarioSubmit md5c true (pystr "f.xlsx") (pystr "T2")
        1 3 [((0 : Nat), sampleRow 'a')]
        (mark_uploaded md5c (pystr "f.xlsx") 0 (sampleRow 'a') (pystr "S1")
          none (pystr "T") {})
      = some ({ total := 1
                skipped := 1
                errors := [((0 : Nat), sampleRow 'a')].map (fun r =>
                  pystr "SKIP: Riga " ++ natRepr r.1 ++ pystr " già caricata") },
          mark_uploaded md5c (pystr "f.xlsx") 0 (sampleRow 'a') (pystr "S1")
            none (pystr "T") {}) :=
  ⟨by unfold noDupKeys; decide,
   (C1_idempotency md5c (pystr "f.xlsx") 0 (sampleRow 'a') (pystr "S1") none
     (pystr "T") (pystr "T2") {} 2 1 3 scenarioSubmit [((0 : Nat), sampleRow 'a')]
     (mark_uploaded md5c (pystr "f.xlsx") 0 (sampleRow 'a') (pystr "S1")
       none (pystr "T") {})).1,
   (C1_idempotency md5c (pystr "f.xlsx") 0 (sampleRow 'a') (pystr "S1") none
     (pystr "T") (pystr "T2") {} 2 1 3 scenarioSubmit [((0 : Nat), sampleRow 'a')]
     (mark_uploaded md5c (pystr "f.xlsx") 0 (sampleRow 'a') (pystr "S1")
       none (pystr "T") {})).2.1 (by unfold noDupKeys; decide),
   by decide,
   (C1_idempotency md5c (pystr "f.xlsx") 0 (sampleRow 'a') (pystr "S1") none
     (pystr "T") (pystr "T2") {} 2 1 3 scenarioSubmit [((0 : Nat), sampleRow 'a')]
     (mark_uploaded md5c (pystr "f.xlsx") 0 (sampleRow 'a') (pystr "S1")
       none (pystr "T") {})).2.2 (by decide)⟩
